import Mathlib

/-!
Verification development for the Taskops chat backend
(`backend/app/chat/...`): a shallow embedding of the conversation store,
tool registry, tool executor, input validators and the agentic
orchestration loop, with theorems checking the specified properties.

Python values that flow through tool arguments and results are embedded
as the inductive `PyVal`; Python dicts are association lists (keys unique
in practice, lookup returns the first match).  Machine-level concerns
(actual SQL, the OpenAI wire protocol, UUID byte layout, wall-clock
timestamps) are modelled by opaque-but-deterministic data: timestamps are
a logical clock that the store increments on every insert, and
`uuid4`/`utcnow` renderings are deterministic functions of a seed, since
no verified property depends on their concrete values.
-/

namespace Taskops

/-- Embedded Python value (strings, ints, bools, None, datetime objects,
dicts as association lists, lists). -/
inductive PyVal where
  | pstr (s : String)
  | pint (n : Int)
  | pbool (b : Bool)
  | pnone
  | pdatetime (iso : String)
  | pdict (fields : List (String × PyVal))
  | plist (elems : List PyVal)

/-- Python `dict.get(key)` / `key in dict`: first binding of the key in the
association list (Python dict keys are unique). -/
def dget (d : List (String × PyVal)) (key : String) : Option PyVal :=
  (d.find? (fun kv => kv.1 == key)).map (fun kv => kv.2)

/-- Models Python `str.strip()`: drop leading and trailing whitespace. -/
def pyStrip (s : String) : String :=
  ⟨((s.data.dropWhile Char.isWhitespace).reverse.dropWhile Char.isWhitespace).reverse⟩

/-- Python truthiness (`if x:`) for the embedded values. -/
def pyTruthy : PyVal → Bool
  | .pstr s => s ≠ ""
  | .pint n => n ≠ 0
  | .pbool b => b
  | .pnone => false
  | .pdatetime _ => true
  | .pdict l => ¬ l.isEmpty
  | .plist l => ¬ l.isEmpty

/-- Hex digit test, for the UUID format check. -/
def isHexDigit (c : Char) : Bool :=
  c.isDigit || (('a' ≤ c && c ≤ 'f') || ('A' ≤ c && c ≤ 'F'))

/-- Split a character list on a separator (used to model `str.split`). -/
def splitOnChar (sep : Char) : List Char → List (List Char)
  | [] => [[]]
  | x :: xs =>
      match splitOnChar sep xs with
      | [] => if x = sep then [[], []] else [[x]]
      | y :: ys => if x = sep then [] :: y :: ys else (x :: y) :: ys

/-- Models the `uuid.UUID(s)` constructor succeeding: canonical
8-4-4-4-12 hex format (Python also accepts some variants; the claims only
use canonical or clearly malformed inputs). -/
def isUuid (s : String) : Bool :=
  match splitOnChar '-' s.data with
  | [a, b, c, d, e] =>
      a.length = 8 && b.length = 4 && c.length = 4 && d.length = 4 && e.length = 12
        && (a ++ b ++ c ++ d ++ e).all isHexDigit
  | _ => false

/-- Models `datetime.fromisoformat(s)` succeeding: `YYYY-MM-DD`, optionally
followed by a time part.  A coarse but executable grammar; the claims only
exercise clearly-valid or clearly-invalid inputs. -/
def isIsoDatetime (s : String) : Bool :=
  match splitOnChar '-' s.data with
  | y :: m :: rest =>
      y.length = 4 && y.all Char.isDigit && m.length = 2 && m.all Char.isDigit
        && (match rest with
            | [d] =>
                (d.takeWhile Char.isDigit).length = 2
                  && (d.length = 2
                      || ((d.get? 2 = some 'T' || d.get? 2 = some ' ')
                          && (d.drop 3).all
                              (fun c => c.isDigit || c = ':' || c = '.' || c = '+')))
            | _ => false)
  | _ => false

/-- Models Python `int(x)`: ints pass through, bools are ints, strings are
parsed as optionally-signed decimal after stripping whitespace; everything
else (None, datetime, containers) raises.  `none` stands for the raised
`ValueError`/`TypeError` (the call sites catch both identically). -/
def pyToInt : PyVal → Option Int
  | .pint n => some n
  | .pbool b => some (if b then 1 else 0)
  | .pstr s =>
      let t := pyStrip s
      let core := if t.startsWith "-" || t.startsWith "+" then t.drop 1 else t
      if core ≠ "" && core.data.all Char.isDigit then
        some (if t.startsWith "-" then -(core.toNat!) else (core.toNat! : Int))
      else none
  | _ => none

/-- Rendering used where the code calls `str(x)` on an embedded value.
Approximates CPython's rendering; no verified property inspects the
rendered text beyond (non-)emptiness. -/
def pyStr : PyVal → String
  | .pstr s => s
  | .pint n => toString n
  | .pbool b => if b then "True" else "False"
  | .pnone => "None"
  | .pdatetime iso => iso
  | .pdict _ => "\x7b...\x7d"
  | .plist _ => "[...]"

mutual

/-- Models `json.dumps(x)` for the values the chat loop serializes (tool
results contain only strings, ints, bools, None, lists and dicts). -/
def dumps : PyVal → String
  | .pstr s => "\"" ++ s ++ "\""
  | .pint n => toString n
  | .pbool b => if b then "true" else "false"
  | .pnone => "null"
  | .pdatetime iso => "\"" ++ iso ++ "\""
  | .pdict l => "\x7b" ++ String.intercalate ", " (dumpsFields l) ++ "\x7d"
  | .plist l => "[" ++ String.intercalate ", " (dumpsElems l) ++ "]"

def dumpsFields : List (String × PyVal) → List String
  | [] => []
  | (k, v) :: rest => ("\"" ++ k ++ "\": " ++ dumps v) :: dumpsFields rest

def dumpsElems : List PyVal → List String
  | [] => []
  | v :: rest => dumps v :: dumpsElems rest

end

/-- Models `str(uuid4())` in the mock task handlers: an opaque fresh identifier,
deterministic in the seed (no claim depends on its value). -/
def uuid4str (seed : Nat) : String := "00000000-0000-4000-8000-" ++ toString seed

/-- Models `datetime.utcnow().isoformat()` in the mock task handlers: opaque,
deterministic in the seed (no claim depends on its value). -/
def utcnowIso (seed : Nat) : String := "2025-01-01T00:00:" ++ toString seed

/-! ## Conversation store
(`app/chat/models/{conversation,message}.py`,
`app/chat/repositories/conversation_repository.py`,
`app/chat/services/conversation_service.py`).

Timestamps (`created_at` / `updated_at`, set from `datetime.utcnow()`) are
a logical clock `Store.now` that advances on every committed insert, so
`created_at` order coincides with insertion order, which is the setting
every ordering claim assumes.  A SQL transaction is embedded as a pure
function from the store to the store: `session.add` only stages a row, so
a path that ends in `session.rollback()` returns the input store
unchanged, and the path through `session.commit()` returns the store with
every staged change applied. -/

/-- Row of the `conversations` table. -/
structure Conversation where
  id : Nat
  user_id : String
  title : String
  created_at : Nat
  updated_at : Nat
deriving Repr, DecidableEq

/-- Row of the `messages` table (`role` is checked by the service and by a
DB `CheckConstraint`; `tool_calls` is the optional JSONB payload). -/
structure Message where
  id : Nat
  conversation_id : Nat
  user_id : String
  role : String
  content : String
  tool_calls : Option PyVal
  created_at : Nat

/-- The persistent store: the two tables plus the logical clock. -/
structure Store where
  conversations : List Conversation
  messages : List Message
  now : Nat

/-- Failure of `ConversationService.append_message`, as a typed result:
`invalidRole` is the `ValueError` raised by the role check, `notOwned` the
`ValueError` raised after the in-transaction ownership re-check, `dbError`
any persistence failure surfacing at commit. -/
inductive AppendErr where
  | invalidRole (role : String)
  | notOwned
  | dbError
deriving Repr, DecidableEq

/-- Rendering `str(e)` of the exception carried by an `AppendErr` (used where the
orchestration loop stringifies the caught exception). -/
def AppendErr.pyMessage : AppendErr → String
  | .invalidRole r => "Invalid role \x27" ++ r ++ "\x27 - must be \x27user\x27 or \x27assistant\x27"
  | .notOwned => "Conversation not found or not owned by user"
  | .dbError => "database error"

/-- Embeds `ConversationRepository.get_by_id`: SELECT with the owner filter
`(Conversation.id == conversation_id) & (Conversation.user_id == user_id)`;
`scalar_one_or_none` under the unique-id invariant is the first match. -/
def ConversationRepository.get_by_id (s : Store) (conversation_id : Nat)
    (user_id : String) : Option Conversation :=
  s.conversations.find? (fun c => c.id == conversation_id && c.user_id == user_id)

/-- Embeds `ConversationService.get_conversation`, which delegates to the repository. -/
def ConversationService.get_conversation (s : Store) (conversation_id : Nat)
    (user_id : String) : Option Conversation :=
  ConversationRepository.get_by_id s conversation_id user_id

/-- Models `ORDER BY created_at ASC` as a stable insertion sort on the row list. -/
def insertByCreated (m : Message) : List Message → List Message
  | [] => [m]
  | x :: xs => if m.created_at ≤ x.created_at then m :: x :: xs else x :: insertByCreated m xs

/-- Models `ORDER BY created_at ASC` over a filtered row list. -/
def orderByCreatedAsc : List Message → List Message
  | [] => []
  | x :: xs => insertByCreated x (orderByCreatedAsc xs)

/-- Embeds `ConversationService.get_recent_messages`: ownership check via
`get_by_id` (empty list when it fails), then
`SELECT ... WHERE conversation_id = .. AND user_id = ..
ORDER BY created_at ASC LIMIT limit`. -/
def ConversationService.get_recent_messages (s : Store) (conversation_id : Nat)
    (user_id : String) (limit : Nat) : List Message :=
  match ConversationRepository.get_by_id s conversation_id user_id with
  | none => []
  | some _ =>
      (orderByCreatedAsc (s.messages.filter
        (fun m => m.conversation_id == conversation_id && m.user_id == user_id))).take limit

/-- Embeds `ConversationService.append_message`.  Mirrors the source's control
flow: (1) `role not in ('user', 'assistant')` raises `ValueError` before
any store interaction; (2) the message row is staged (`session.add`), then
ownership is re-verified inside the same transaction — on failure the
transaction is rolled back (store unchanged) and `ValueError` raised;
(3) the parent conversation's `updated_at` is set and the transaction
commits: the message insert and the `updated_at` change land together, or
(`commitOk = false`, any persistence failure) the transaction rolls back
and nothing lands.  Returns the result together with the
post-transaction store. -/
def ConversationService.append_message (s : Store) (conversation_id : Nat)
    (user_id role content : String) (tool_calls : Option PyVal)
    (commitOk : Bool) : Except AppendErr Message × Store :=
  if ¬ (role = "user" ∨ role = "assistant") then
    (.error (.invalidRole role), s)
  else
    match ConversationRepository.get_by_id s conversation_id user_id with
    | none => (.error .notOwned, s)
    | some _ =>
        if commitOk then
          let msg : Message :=
            { id := s.now, conversation_id := conversation_id, user_id := user_id,
              role := role, content := content, tool_calls := tool_calls,
              created_at := s.now }
          (.ok msg,
            { conversations :=
                s.conversations.map (fun c =>
                  if c.id = conversation_id ∧ c.user_id = user_id then
                    { c with updated_at := s.now }
                  else c),
              messages := s.messages ++ [msg],
              now := s.now + 1 })
        else (.error .dbError, s)

/-! ## Tool registry (`app/chat/tools/registry.py`).
The registry maps the five fixed tool names to JSON schemas consumed only
by the completion service (which the loop model treats as an oracle), so
the embedding keeps the key set, which is all `validate_tool_name` and
`get_tool_names` read. -/

/-- Embeds `get_tool_names()`: the keys of `get_tool_schemas()`. -/
def get_tool_names : List String :=
  ["add_task", "list_tasks", "complete_task", "delete_task", "update_task"]

/-- Embeds `validate_tool_name(tool_name)`: membership in the registry. -/
def validate_tool_name (tool_name : String) : Bool :=
  get_tool_names.contains tool_name

/-! ## Tool executor (`app/chat/tools/executor.py`).
Each `_execute_*` handler returns `Except PyExc PyVal`: `.ok` is the
handler's returned dict, `.error` the exception it raises
(`ToolValidationError`, `ToolNotFoundError`, or anything else reaching
`except Exception` — here the `AttributeError`/`TypeError` that string
methods and `datetime.fromisoformat` raise on ill-typed values).  The
mock handlers (pre-Phase-9 `TODO`s in the source) touch no store, so the
executor is pure; `seed` feeds the modelled `uuid4()`/`utcnow()`. -/

/-- Exceptions raised inside a tool handler. -/
inductive PyExc where
  | toolValidation (msg : String)
  | toolNotFound (msg : String)
  | otherExc (msg : String)
deriving Repr, DecidableEq

/-- Models `priority in ("low", "medium", "high")` on an embedded value (a
non-string is simply not a member). -/
def isPriority : PyVal → Bool
  | .pstr p => p = "low" || p = "medium" || p = "high"
  | _ => false

/-- Models `status in ("all", "pending", "completed")` on an embedded value. -/
def isListStatus : PyVal → Bool
  | .pstr s => s = "all" || s = "pending" || s = "completed"
  | _ => false

/-- Models `x is None` on an embedded value. -/
def isPnone : PyVal → Bool
  | .pnone => true
  | _ => false

/-- Embeds `ToolExecutor._execute_add_task`. -/
def ToolExecutor.executeAddTask (args : List (String × PyVal)) (seed : Nat) :
    Except PyExc PyVal :=
  match dget args "title" with
  | some (.pstr rawTitle) =>
      if pyStrip rawTitle = "" then
        .error (.toolValidation "title is required and must be a non-empty string")
      else
        let title := pyStrip rawTitle
        if title.length > 200 then
          .error (.toolValidation "title must be max 200 characters")
        else
          match (dget args "description").getD (.pstr "") with
          | .pstr rawDescription =>
              let description := pyStrip rawDescription
              if description ≠ "" ∧ description.length > 1024 then
                .error (.toolValidation "description must be max 1024 characters")
              else
                let priority := (dget args "priority").getD (.pstr "medium")
                if ¬ isPriority priority then
                  .error (.toolValidation "priority must be low, medium, or high")
                else
                  let due_date := (dget args "due_date").getD .pnone
                  if pyTruthy due_date then
                    match due_date with
                    | .pstr ds =>
                        if isIsoDatetime ds then
                          .ok (.pdict [("id", .pstr (uuid4str seed)), ("title", .pstr title),
                            ("description", if description = "" then .pnone else .pstr description),
                            ("status", .pstr "pending"), ("priority", priority),
                            ("due_date", due_date), ("created_at", .pstr (utcnowIso seed))])
                        else
                          .error (.toolValidation "due_date must be in ISO format (YYYY-MM-DD or ISO8601)")
                    | _ => .error (.otherExc "TypeError: fromisoformat argument must be str")
                  else
                    .ok (.pdict [("id", .pstr (uuid4str seed)), ("title", .pstr title),
                      ("description", if description = "" then .pnone else .pstr description),
                      ("status", .pstr "pending"), ("priority", priority),
                      ("due_date", due_date), ("created_at", .pstr (utcnowIso seed))])
          | _ => .error (.otherExc "AttributeError: object has no attribute strip")
  | _ => .error (.toolValidation "title is required and must be a non-empty string")

/-- Embeds `ToolExecutor._execute_list_tasks` (`isinstance(limit, int)` also accepts
Python bools, whose int values are 0/1). -/
def ToolExecutor.executeListTasks (args : List (String × PyVal)) :
    Except PyExc PyVal :=
  let status := (dget args "status").getD (.pstr "all")
  if ¬ isListStatus status then
    .error (.toolValidation "status must be all, pending, or completed")
  else
    let priority := (dget args "priority").getD .pnone
    if pyTruthy priority ∧ ¬ isPriority priority then
      .error (.toolValidation "priority must be low, medium, or high")
    else
      let limit := (dget args "limit").getD (.pint 20)
      match limit with
      | .pint n =>
          if n < 1 ∨ n > 100 then .error (.toolValidation "limit must be between 1 and 100")
          else
            .ok (.pdict [("count", .pint 0), ("tasks", .plist []),
              ("status_filter", status), ("priority_filter", priority)])
      | .pbool b =>
          if (if b then (1 : Int) else 0) < 1 ∨ (if b then (1 : Int) else 0) > 100 then
            .error (.toolValidation "limit must be between 1 and 100")
          else
            .ok (.pdict [("count", .pint 0), ("tasks", .plist []),
              ("status_filter", status), ("priority_filter", priority)])
      | _ => .error (.toolValidation "limit must be between 1 and 100")

/-- Models `UUID(task_id)` on an embedded value: a well-formed string succeeds, a
malformed string raises `ValueError`, a non-string raises `TypeError`
(the handlers catch only `ValueError`). -/
inductive UuidOutcome where
  | okU
  | valueErrorU
  | typeErrorU
deriving Repr, DecidableEq

/-- Outcome of the `UUID(task_id)` constructor. -/
def uuidCtor : PyVal → UuidOutcome
  | .pstr s => if isUuid s then .okU else .valueErrorU
  | _ => .typeErrorU

/-- Embeds `ToolExecutor._execute_complete_task`. -/
def ToolExecutor.executeCompleteTask (args : List (String × PyVal)) (seed : Nat) :
    Except PyExc PyVal :=
  let task_id := (dget args "task_id").getD .pnone
  if ¬ pyTruthy task_id then .error (.toolValidation "task_id is required")
  else
    match uuidCtor task_id with
    | .okU => .ok (.pdict [("id", task_id), ("status", .pstr "completed"),
        ("completed_at", .pstr (utcnowIso seed))])
    | .valueErrorU => .error (.toolValidation "task_id must be a valid UUID")
    | .typeErrorU => .error (.otherExc "TypeError: one of the hex, bytes arguments must be given")

/-- Embeds `ToolExecutor._execute_delete_task`. -/
def ToolExecutor.executeDeleteTask (args : List (String × PyVal)) (seed : Nat) :
    Except PyExc PyVal :=
  let task_id := (dget args "task_id").getD .pnone
  if ¬ pyTruthy task_id then .error (.toolValidation "task_id is required")
  else
    match uuidCtor task_id with
    | .okU => .ok (.pdict [("id", task_id), ("deleted", .pbool true),
        ("deleted_at", .pstr (utcnowIso seed))])
    | .valueErrorU => .error (.toolValidation "task_id must be a valid UUID")
    | .typeErrorU => .error (.otherExc "TypeError: one of the hex, bytes arguments must be given")

/-- Tail of `_execute_update_task` after the `title` and `description`
checks (priority, due_date, then the mock result). -/
def ToolExecutor.updateTaskAfterDescription (args : List (String × PyVal)) (seed : Nat)
    (task_id title : PyVal) : Except PyExc PyVal :=
  let priority := (dget args "priority").getD .pnone
  if ¬ isPnone priority ∧ ¬ isPriority priority then
    .error (.toolValidation "priority must be low, medium, or high")
  else
    let due_date := (dget args "due_date").getD .pnone
    match due_date with
    | .pnone =>
        .ok (.pdict [("id", task_id),
          ("title", if pyTruthy title then title else .pstr "Task"),
          ("priority", if pyTruthy priority then priority else .pstr "medium"),
          ("updated_at", .pstr (utcnowIso seed))])
    | .pstr ds =>
        if isIsoDatetime ds then
          .ok (.pdict [("id", task_id),
            ("title", if pyTruthy title then title else .pstr "Task"),
            ("priority", if pyTruthy priority then priority else .pstr "medium"),
            ("updated_at", .pstr (utcnowIso seed))])
        else .error (.toolValidation "due_date must be in ISO format")
    | _ => .error (.otherExc "TypeError: fromisoformat argument must be str")

/-- Tail of `_execute_update_task` after the `title` checks. -/
def ToolExecutor.updateTaskAfterTitle (args : List (String × PyVal)) (seed : Nat)
    (task_id title : PyVal) : Except PyExc PyVal :=
  let description := (dget args "description").getD .pnone
  match description with
  | .pnone => ToolExecutor.updateTaskAfterDescription args seed task_id title
  | .pstr d =>
      if d.length > 1024 then .error (.toolValidation "description must be max 1024 characters")
      else ToolExecutor.updateTaskAfterDescription args seed task_id title
  | _ => .error (.toolValidation "description must be a string")

/-- Embeds `ToolExecutor._execute_update_task` (`title` is checked on its raw
length but required non-empty after strip; the split into `AfterTitle` /
`AfterDescription` tails only linearizes the source's straight-line
sequence of optional-field checks). -/
def ToolExecutor.executeUpdateTask (args : List (String × PyVal)) (seed : Nat) :
    Except PyExc PyVal :=
  let task_id := (dget args "task_id").getD .pnone
  if ¬ pyTruthy task_id then .error (.toolValidation "task_id is required")
  else
    match uuidCtor task_id with
    | .valueErrorU => .error (.toolValidation "task_id must be a valid UUID")
    | .typeErrorU => .error (.otherExc "TypeError: one of the hex, bytes arguments must be given")
    | .okU =>
        match (dget args "title").getD .pnone with
        | .pnone => ToolExecutor.updateTaskAfterTitle args seed task_id .pnone
        | .pstr t =>
            if pyStrip t = "" then .error (.toolValidation "title must be a non-empty string")
            else if t.length > 200 then .error (.toolValidation "title must be max 200 characters")
            else ToolExecutor.updateTaskAfterTitle args seed task_id (.pstr t)
        | _ => .error (.toolValidation "title must be a non-empty string")

/-- The name-keyed dispatch inside `ToolExecutor.execute`; the final
`else` raises `ToolNotFoundError` with message `Unknown tool: <name>`. -/
def ToolExecutor.dispatch (tool_name : String) (args : List (String × PyVal))
    (seed : Nat) : Except PyExc PyVal :=
  if tool_name = "add_task" then ToolExecutor.executeAddTask args seed
  else if tool_name = "list_tasks" then ToolExecutor.executeListTasks args
  else if tool_name = "complete_task" then ToolExecutor.executeCompleteTask args seed
  else if tool_name = "delete_task" then ToolExecutor.executeDeleteTask args seed
  else if tool_name = "update_task" then ToolExecutor.executeUpdateTask args seed
  else .error (.toolNotFound ("Unknown tool: " ++ tool_name))

/-- The structured result `ToolExecutor.execute` always returns:
`{"success": ..., "tool_name": ..., "result": ..., "error": ...}`. -/
structure ExecResult where
  success : Bool
  tool_name : String
  result : PyVal
  error : Option String

/-- Embeds `ToolExecutor.execute`: dispatch wrapped in the
`ToolValidationError` / `ToolNotFoundError` / `Exception` handlers, each
of which returns a structured failure dict instead of re-raising
(`user_id` and `conversation_id` are used only for logging and, in the
mock handlers, not at all). -/
def ToolExecutor.execute (tool_name : String) (args : List (String × PyVal))
    (user_id : String) (conversation_id : Nat) (seed : Nat) : ExecResult :=
  match ToolExecutor.dispatch tool_name args seed with
  | .ok r => { success := true, tool_name := tool_name, result := r, error := none }
  | .error (.toolValidation m) =>
      { success := false, tool_name := tool_name, result := .pnone,
        error := some ("Validation error: " ++ m) }
  | .error (.toolNotFound m) =>
      { success := false, tool_name := tool_name, result := .pnone, error := some m }
  | .error (.otherExc m) =>
      { success := false, tool_name := tool_name, result := .pnone,
        error := some ("Execution error: " ++ m) }

/-! ## Tool input validators (`app/chat/mcp_server/validators.py`).
Each `validate_*_input` returns the normalized dict or raises:
`ValidationError` for schema violations, and — reproduced faithfully
because the idempotence claim turns on them — the uncaught
`AttributeError` from `.strip()`/`.replace()` on a non-string (notably
the `None` the validators themselves emit for absent optional fields)
and the uncaught `TypeError` from `datetime.replace("Z", "+00:00")` on an
already-parsed `datetime` object. -/

/-- Exception from a validator: `validationError` carries the message;
`attributeErr`/`typeErr` are the uncaught built-in exceptions;
`keyErrorV` is the `KeyError` for an unregistered tool name. -/
inductive VErr where
  | validationError (msg : String)
  | attributeErr
  | typeErr
  | keyErrorV (msg : String)
deriving Repr, DecidableEq

/-- Models `tool_input["due_date"].replace("Z", "+00:00")` followed by
`datetime.fromisoformat(...)`, with the call sites' `except (ValueError,
AttributeError)` folded in: a parse failure or a `.replace` on a
non-string both yield `.error (field-specific message)`; a `datetime`
object hits `datetime.replace` with positional string arguments, a
`TypeError` the call sites do not catch. -/
def parseDueDate (v : PyVal) (msg : String) : Except VErr PyVal :=
  match v with
  | .pstr s =>
      let s2 := s.replace "Z" "+00:00"
      if isIsoDatetime s2 then .ok (.pdatetime s2) else .error (.validationError msg)
  | .pdatetime _ => .error .typeErr
  | _ => .error (.validationError msg)

/-- Tail of `validate_add_task_input` (priority, due_date, result dict;
`descriptionOrNone` is already `description or None`). -/
def validateAddTaskTail (tool_input : List (String × PyVal)) (title : String)
    (descriptionOrNone : PyVal) : Except VErr (List (String × PyVal)) :=
  let priority := (dget tool_input "priority").getD (.pstr "medium")
  if ¬ isPriority priority then
    .error (.validationError ("priority must be low/medium/high, got " ++ pyStr priority))
  else
    match dget tool_input "due_date" with
    | none =>
        .ok [("title", .pstr title), ("description", descriptionOrNone),
             ("priority", priority), ("due_date", .pnone)]
    | some dv =>
        match parseDueDate dv "due_date must be valid ISO 8601 datetime" with
        | .error e => .error e
        | .ok parsed =>
            .ok [("title", .pstr title), ("description", descriptionOrNone),
                 ("priority", priority), ("due_date", parsed)]

/-- Embeds `validate_add_task_input`. -/
def validate_add_task_input (tool_input : List (String × PyVal)) :
    Except VErr (List (String × PyVal)) :=
  match dget tool_input "title" with
  | none => .error (.validationError "title is required for add_task")
  | some titleVal =>
      match titleVal with
      | .pstr rawTitle =>
          let title := pyStrip rawTitle
          if title = "" then .error (.validationError "title cannot be empty")
          else if title.length > 200 then
            .error (.validationError "title must be <= 200 characters")
          else
            match dget tool_input "description" with
            | some (.pstr rawDescription) =>
                let description := pyStrip rawDescription
                if description ≠ "" ∧ description.length > 1024 then
                  .error (.validationError "description must be <= 1024 characters")
                else validateAddTaskTail tool_input title
                      (if description = "" then .pnone else .pstr description)
            | some _ => .error .attributeErr
            | none => validateAddTaskTail tool_input title .pnone
      | _ => .error .attributeErr

/-- Embeds `validate_list_tasks_input` (`int(x)` raising `ValueError`/`TypeError`
is modelled by `pyToInt = none`; both exceptions are caught identically). -/
def validate_list_tasks_input (tool_input : List (String × PyVal)) :
    Except VErr (List (String × PyVal)) :=
  let status := (dget tool_input "status").getD (.pstr "all")
  if ¬ isListStatus status then
    .error (.validationError ("status must be pending/completed/all, got " ++ pyStr status))
  else
    match pyToInt ((dget tool_input "limit").getD (.pint 50)) with
    | none => .error (.validationError "limit must be integer")
    | some limit =>
        if limit < 1 ∨ limit > 100 then .error (.validationError "limit must be 1-100")
        else
          match pyToInt ((dget tool_input "offset").getD (.pint 0)) with
          | none => .error (.validationError "offset must be non-negative integer")
          | some offset =>
              if offset < 0 then .error (.validationError "offset must be >= 0")
              else .ok [("status", status), ("limit", .pint limit), ("offset", .pint offset)]

/-- Models `UUID(task_id)` inside a validator, where `except (ValueError,
AttributeError, TypeError)` catches every failure alike. -/
def uuidAccepted : PyVal → Bool
  | .pstr s => isUuid s
  | _ => false

/-- Embeds `validate_complete_task_input`. -/
def validate_complete_task_input (tool_input : List (String × PyVal)) :
    Except VErr (List (String × PyVal)) :=
  match dget tool_input "task_id" with
  | none => .error (.validationError "task_id is required for complete_task")
  | some task_id =>
      if uuidAccepted task_id then .ok [("task_id", task_id)]
      else .error (.validationError ("task_id must be valid UUID, got " ++ pyStr task_id))

/-- Embeds `validate_delete_task_input`. -/
def validate_delete_task_input (tool_input : List (String × PyVal)) :
    Except VErr (List (String × PyVal)) :=
  match dget tool_input "task_id" with
  | none => .error (.validationError "task_id is required for delete_task")
  | some task_id =>
      if uuidAccepted task_id then .ok [("task_id", task_id)]
      else .error (.validationError ("task_id must be valid UUID, got " ++ pyStr task_id))

/-- Tail of `validate_update_task_input`: the optional `due_date`. -/
def validateUpdateDueTail (tool_input : List (String × PyVal))
    (result : List (String × PyVal)) : Except VErr (List (String × PyVal)) :=
  match dget tool_input "due_date" with
  | none => .ok result
  | some dv =>
      match parseDueDate dv "due_date must be valid ISO 8601 datetime" with
      | .error e => .error e
      | .ok parsed => .ok (result ++ [("due_date", parsed)])

/-- Tail of `validate_update_task_input`: optional `priority`, `due_date`. -/
def validateUpdatePrioTail (tool_input : List (String × PyVal))
    (result : List (String × PyVal)) : Except VErr (List (String × PyVal)) :=
  match dget tool_input "priority" with
  | some p =>
      if ¬ isPriority p then
        .error (.validationError ("priority must be low/medium/high, got " ++ pyStr p))
      else validateUpdateDueTail tool_input (result ++ [("priority", p)])
  | none => validateUpdateDueTail tool_input result

/-- Tail of `validate_update_task_input`: the optional `description`. -/
def validateUpdateDescTail (tool_input : List (String × PyVal))
    (result : List (String × PyVal)) : Except VErr (List (String × PyVal)) :=
  match dget tool_input "description" with
  | none => validateUpdatePrioTail tool_input result
  | some (.pstr rawDescription) =>
      let description := pyStrip rawDescription
      if description ≠ "" ∧ description.length > 1024 then
        .error (.validationError "description must be <= 1024 characters")
      else validateUpdatePrioTail tool_input
            (result ++ [("description", if description = "" then .pnone else .pstr description)])
  | some _ => .error .attributeErr

/-- Embeds `validate_update_task_input`. -/
def validate_update_task_input (tool_input : List (String × PyVal)) :
    Except VErr (List (String × PyVal)) :=
  match dget tool_input "task_id" with
  | none => .error (.validationError "task_id is required for update_task")
  | some task_id =>
      if ¬ uuidAccepted task_id then
        .error (.validationError ("task_id must be valid UUID, got " ++ pyStr task_id))
      else
        match dget tool_input "title" with
        | none => validateUpdateDescTail tool_input [("task_id", task_id)]
        | some (.pstr rawTitle) =>
            let title := pyStrip rawTitle
            if title = "" then .error (.validationError "title cannot be empty")
            else if title.length > 200 then
              .error (.validationError "title must be <= 200 characters")
            else validateUpdateDescTail tool_input [("task_id", task_id), ("title", .pstr title)]
        | some _ => .error .attributeErr

/-- Embeds `validate_tool_input`: the `_VALIDATORS` registry dispatch; an
unregistered name raises `KeyError` with message `Unknown tool: <name>`. -/
def validate_tool_input (tool_name : String) (tool_input : List (String × PyVal)) :
    Except VErr (List (String × PyVal)) :=
  if tool_name = "add_task" then validate_add_task_input tool_input
  else if tool_name = "list_tasks" then validate_list_tasks_input tool_input
  else if tool_name = "complete_task" then validate_complete_task_input tool_input
  else if tool_name = "delete_task" then validate_delete_task_input tool_input
  else if tool_name = "update_task" then validate_update_task_input tool_input
  else .error (.keyErrorV ("Unknown tool: " ++ tool_name))

/-! ## Orchestration loop (`app/chat/services/chat_service.py`).
The completion service is an oracle `Nat → CompletionOutcome` giving, for
the n-th `chat.completions.create` call of the turn, either a response
`{text, tool_calls}` or one of the exceptions the loop handles
(`Timeout`, `RateLimitError`, `APIError`, anything else).  Tool-call
arguments are embedded already parsed (the source's
`isinstance(tool_args, str)` branch just `json.loads`es them first).
`_invoke_agent_with_tools` recurses with `retry_count + 1` only below
`MAX_RETRIES_ON_INVALID_TOOL_CALL`; the embedding makes that bounded
recursion structural on a fuel argument fixed to
`MAX_RETRIES_ON_INVALID_TOOL_CALL + 1 - retry_count`, whose zero case
duplicates the retry-bound branch and is unreachable from
`invokeAgent`. -/

/-- Constant `ChatService.MAX_TOOL_CALLS_PER_TURN`. -/
def MAX_TOOL_CALLS_PER_TURN : Nat := 5

/-- Constant `ChatService.MAX_RETRIES_ON_INVALID_TOOL_CALL`. -/
def MAX_RETRIES_ON_INVALID_TOOL_CALL : Nat := 2

/-- Constant `ChatService.MAX_CONVERSATION_HISTORY`. -/
def MAX_CONVERSATION_HISTORY : Nat := 50

/-- One tool-call request inside a completion response
(`tool_call.id`, `tool_call.function.name`, the parsed arguments). -/
structure ToolCallReq where
  id : String
  name : String
  args : List (String × PyVal)

/-- A completion response: `choice.message.content or ""` and the
(possibly empty) `tool_calls` list. -/
structure CompletionResponse where
  text : String
  tool_calls : List ToolCallReq

/-- Outcome of one `client.chat.completions.create` call. -/
inductive CompletionOutcome where
  | ok (resp : CompletionResponse)
  | timeoutExc
  | rateLimitExc
  | apiErrorExc
  | genericExc

/-- A message dict in the completion-service format, as built by
`_format_messages_for_agent` and by the loop's `updated_messages`. -/
structure AgentMsg where
  role : String
  content : String
  tool_call_id : Option String := none
  tool_calls : Option (List ToolCallReq) := none

/-- An entry of `tool_calls_made`: either
`{"id", "name", "arguments", "result"}` after a completed execution or
`{"id", "name", "error"}` appended by the per-call `except` handler. -/
inductive ToolRecord where
  | okRec (id name : String) (arguments : List (String × PyVal)) (result : ExecResult)
  | errRec (id name : String) (error : String)

/-- The `id` field of a `tool_calls_made` entry. -/
def ToolRecord.recId : ToolRecord → String
  | .okRec i _ _ _ => i
  | .errRec i _ _ => i

/-- The `name` field of a `tool_calls_made` entry. -/
def ToolRecord.recName : ToolRecord → String
  | .okRec _ n _ _ => n
  | .errRec _ n _ => n

/-- Builds the tool-result text the loop persists: the f-string
`Tool <name> result: <json.dumps of tool_result.get(result, tool_result)>`
(the `result` key is always present in the executor's dict). -/
def toolResultText (tool_name : String) (tool_result : ExecResult) : String :=
  "Tool \x27" ++ tool_name ++ "\x27 result: " ++ dumps tool_result.result

/-- The `tool_calls` JSONB attached to a persisted `tool` message:
`{"tool_name": tool_name, "result": tool_result.get("result")}`. -/
def toolCallsField (tool_name : String) (tool_result : ExecResult) : PyVal :=
  .pdict [("tool_name", .pstr tool_name), ("result", tool_result.result)]

/-- Result of one round's `for i, tool_call in enumerate(tool_calls)` loop:
the threaded store, the accumulated `tool_calls_made`, and (ghost
instrumentation, not data the source keeps) the number of executor
invocations and the ids of the calls that reached the executor. -/
structure RoundOut where
  store : Store
  records : List ToolRecord
  execCount : Nat
  executedIds : List String

/-- Body of the round loop, with the running index `i`: `break` once
`i >= MAX_TOOL_CALLS_PER_TURN`; `continue` (no record) when
`validate_tool_name` fails; otherwise execute, record the result, and try
to persist a `tool`-role message — whose raised exception the per-call
`except` turns into an additional error record.  The executor's seed is
the call index. -/
def runToolCallsAux (uid : String) (cid : Nat) :
    List ToolCallReq → Nat → Store → List ToolRecord → Nat → List String → RoundOut
  | [], _, s, recs, ex, ids => ⟨s, recs, ex, ids⟩
  | c :: rest, i, s, recs, ex, ids =>
      if MAX_TOOL_CALLS_PER_TURN ≤ i then ⟨s, recs, ex, ids⟩
      else if ¬ validate_tool_name c.name then
        runToolCallsAux uid cid rest (i + 1) s recs ex ids
      else
        let tr := ToolExecutor.execute c.name c.args uid cid i
        let okR := ToolRecord.okRec c.id c.name c.args tr
        match ConversationService.append_message s cid uid "tool"
            (toolResultText c.name tr) (some (toolCallsField c.name tr)) true with
        | (.ok _, s2) =>
            runToolCallsAux uid cid rest (i + 1) s2 (recs ++ [okR]) (ex + 1) (ids ++ [c.id])
        | (.error e, s2) =>
            runToolCallsAux uid cid rest (i + 1) s2
              (recs ++ [okR, .errRec c.id c.name e.pyMessage]) (ex + 1) (ids ++ [c.id])

/-- One round's tool-call processing (index starts at 0). -/
def runToolCalls (s : Store) (uid : String) (cid : Nat)
    (tool_calls : List ToolCallReq) : RoundOut :=
  runToolCallsAux uid cid tool_calls 0 s [] 0 []

/-- The `updated_messages` entry for one `tool_calls_made` record:
`{"role": "tool", "tool_call_id": ..., "content": str(result) | "Error: ..."}`. -/
def recordToToolMsg : ToolRecord → AgentMsg
  | .okRec i _ _ tr => { role := "tool", content := pyStr tr.result, tool_call_id := some i }
  | .errRec i _ e => { role := "tool", content := "Error: " ++ e, tool_call_id := some i }

/-- Return value of `_invoke_agent_with_tools` — the response dict and
`tool_calls_made` — plus the threaded store and ghost instrumentation:
`calls` counts completion-service calls made by the invocation,
`roundExecs` the executor invocations of each round (outermost first),
`roundRecords` each round's `tool_calls_made`, `executedIds` every
tool-call id that reached the executor. -/
structure InvokeOut where
  success : Bool
  response : String
  error : Option String
  tool_calls_made : Option (List ToolRecord)
  store : Store
  calls : Nat
  roundExecs : List Nat
  roundRecords : List (List ToolRecord)
  executedIds : List String

/-- Embeds `ChatService._invoke_agent_with_tools`, structural on `fuel`
(invariant `fuel = MAX_RETRIES_ON_INVALID_TOOL_CALL + 1 - retry_count`,
so the `fuel = 0` fallback — a copy of the retry-bound branch — is
unreachable).  Exception branches return the source's fallback dicts;
otherwise: no tool calls → final answer; tool calls → run the round,
extend the in-memory history with the synthetic assistant message and the
tool-result messages, and either stop at the retry bound (returning the
current round's `assistant_message` and `tool_calls_made`) or recurse. -/
def invokeAgentFuel (oracle : Nat → CompletionOutcome) (uid : String) (cid : Nat) :
    Nat → List AgentMsg → Store → Nat → Nat → InvokeOut
  | fuel, messages, s, retry_count, callIdx =>
    match oracle callIdx with
    | .timeoutExc =>
        { success := false, error := some "timeout",
          response := "I\x27m taking a bit longer than usual. Please try again.",
          tool_calls_made := none, store := s, calls := 1,
          roundExecs := [], roundRecords := [], executedIds := [] }
    | .rateLimitExc =>
        { success := false, error := some "rate_limit",
          response := "I\x27ve hit a temporary API limit. Please try again in a moment.",
          tool_calls_made := none, store := s, calls := 1,
          roundExecs := [], roundRecords := [], executedIds := [] }
    | .apiErrorExc =>
        { success := false, error := some "api_error",
          response := "I encountered an API error. Please try again.",
          tool_calls_made := none, store := s, calls := 1,
          roundExecs := [], roundRecords := [], executedIds := [] }
    | .genericExc =>
        { success := false, error := some "unknown",
          response := "I encountered an unexpected error. Please try again.",
          tool_calls_made := none, store := s, calls := 1,
          roundExecs := [], roundRecords := [], executedIds := [] }
    | .ok resp =>
        if resp.tool_calls.isEmpty then
          { success := true, error := none, response := resp.text,
            tool_calls_made := none, store := s, calls := 1,
            roundExecs := [], roundRecords := [], executedIds := [] }
        else
          let round := runToolCalls s uid cid resp.tool_calls
          let updated_messages := messages
            ++ [{ role := "assistant", content := resp.text,
                  tool_calls := some resp.tool_calls }]
            ++ round.records.map recordToToolMsg
          let boundOut : InvokeOut :=
            { success := true, error := none, response := resp.text,
              tool_calls_made := some round.records, store := round.store, calls := 1,
              roundExecs := [round.execCount], roundRecords := [round.records],
              executedIds := round.executedIds }
          if MAX_RETRIES_ON_INVALID_TOOL_CALL ≤ retry_count then boundOut
          else
            match fuel with
            | 0 => boundOut
            | fuel2 + 1 =>
                let deeper := invokeAgentFuel oracle uid cid fuel2 updated_messages
                  round.store (retry_count + 1) (callIdx + 1)
                { deeper with
                    calls := deeper.calls + 1,
                    roundExecs := round.execCount :: deeper.roundExecs,
                    roundRecords := round.records :: deeper.roundRecords,
                    executedIds := round.executedIds ++ deeper.executedIds }

/-- Embeds `ChatService._invoke_agent_with_tools` at its public entry points
(the source is called with the default `retry_count = 0`). -/
def invokeAgent (oracle : Nat → CompletionOutcome) (messages : List AgentMsg)
    (uid : String) (cid : Nat) (s : Store) (retry_count callIdx : Nat) : InvokeOut :=
  invokeAgentFuel oracle uid cid (MAX_RETRIES_ON_INVALID_TOOL_CALL + 1 - retry_count)
    messages s retry_count callIdx

/-- The executor result dict rendered back into a `PyVal` (for the
`tool_calls` JSONB of the final assistant message). -/
def execResultToPy (tr : ExecResult) : PyVal :=
  .pdict [("success", .pbool tr.success), ("tool_name", .pstr tr.tool_name),
    ("result", tr.result),
    ("error", match tr.error with | some e => .pstr e | none => .pnone)]

/-- A `tool_calls_made` entry as the dict the source stores. -/
def recordToPyVal : ToolRecord → PyVal
  | .okRec i n args tr =>
      .pdict [("id", .pstr i), ("name", .pstr n), ("arguments", .pdict args),
        ("result", execResultToPy tr)]
  | .errRec i n e =>
      .pdict [("id", .pstr i), ("name", .pstr n), ("error", .pstr e)]

/-- Return value of `ChatService.process_chat_message`, plus the store it
leaves behind.  `message_count` is only present on the success path
(the Python dict has no such key otherwise). -/
structure ProcessOut where
  success : Bool
  error : Option String
  response : String
  tool_calls_executed : List ToolRecord
  message_count : Option Nat
  store : Store

/-- The `except Exception` handler of `process_chat_message`
(`handle_agent_error` dispatch): the `ValueError`s that
`append_message` raises land in the `handle_parsing_error` branch, a
persistence failure in the `handle_database_error` branch. -/
def processAbort (e : AppendErr) (s : Store) : ProcessOut :=
  match e with
  | .invalidRole _ | .notOwned =>
      { success := false, error := some "parsing_error",
        response := "I had trouble understanding my own response. Could you rephrase your request? For example: \x27add task\x27, \x27show my tasks\x27, or \x27mark task complete\x27",
        tool_calls_executed := [], message_count := none, store := s }
  | .dbError =>
      { success := false, error := some "database_error",
        response := "I had trouble saving your operation. This might be temporary. Please try again in a moment. If the problem persists, please contact support.",
        tool_calls_executed := [], message_count := none, store := s }

/-- Embeds `ChatService.process_chat_message`: ownership check, append the user
message, load history (`MAX_CONVERSATION_HISTORY`), run the agentic loop
from `retry_count = 0`, and on success persist the final assistant
message with `tool_calls = tool_calls_made if tool_calls_made else None`.
Store commits are taken to succeed (`commitOk = true`); the oracle stands
for the completion service. -/
def ChatService.process_chat_message (oracle : Nat → CompletionOutcome) (s : Store)
    (conversation_id : Nat) (user_id user_message : String) : ProcessOut :=
  match ConversationService.get_conversation s conversation_id user_id with
  | none =>
      { success := false, error := some "conversation_not_found",
        response := "I couldn\x27t find that conversation. Please check the ID and try again.",
        tool_calls_executed := [], message_count := none, store := s }
  | some _ =>
      match ConversationService.append_message s conversation_id user_id "user"
          user_message none true with
      | (.error e, s1) => processAbort e s1
      | (.ok _, s1) =>
          let recent := ConversationService.get_recent_messages s1 conversation_id
            user_id MAX_CONVERSATION_HISTORY
          let messages_for_agent := recent.map
            (fun m => ({ role := m.role, content := m.content } : AgentMsg))
          let invoke := invokeAgent oracle messages_for_agent user_id conversation_id s1 0 0
          if invoke.success = false then
            { success := false, error := invoke.error, response := invoke.response,
              tool_calls_executed := [], message_count := none, store := invoke.store }
          else
            let final_response := invoke.response
            let tc : Option PyVal :=
              match invoke.tool_calls_made with
              | some l => if l.isEmpty then none else some (.plist (l.map recordToPyVal))
              | none => none
            match ConversationService.append_message invoke.store conversation_id
                user_id "assistant" final_response tc true with
            | (.error e, s2) => processAbort e s2
            | (.ok _, s2) =>
                { success := true, error := none, response := final_response,
                  tool_calls_executed := invoke.tool_calls_made.getD [],
                  message_count := some (recent.length + 2), store := s2 }

/-! ## Concrete fixtures used by the closed theorems and witnesses. -/

/-- A store holding one conversation (id 1) owned by `"u1"`, no messages. -/
def cStore : Store :=
  { conversations := [{ id := 1, user_id := "u1", title := "t", created_at := 0, updated_at := 0 }],
    messages := [], now := 1 }

/-- Completion oracle for the spec's Scenario B: first response requests
`add_task{title: "Buy milk"}`, every later response is the plain text
`"Added!"` with no tool calls. -/
def scenBOracle : Nat → CompletionOutcome := fun n =>
  if n = 0 then .ok ⟨"", [⟨"call_1", "add_task", [("title", .pstr "Buy milk")]⟩]⟩
  else .ok ⟨"Added!", []⟩

/-- Oracle whose three rounds request one distinguishable, registered tool
call each (`"a"`, `"b"`, `"c"`), always requesting tools. -/
def cexOracle : Nat → CompletionOutcome := fun n =>
  if n = 0 then .ok ⟨"t0", [⟨"a", "list_tasks", []⟩]⟩
  else if n = 1 then .ok ⟨"t1", [⟨"b", "list_tasks", []⟩]⟩
  else .ok ⟨"t2", [⟨"c", "list_tasks", []⟩]⟩

/-- Oracle every round of which requests one call to an unregistered tool. -/
def bogusOracle : Nat → CompletionOutcome := fun _ =>
  .ok ⟨"hm", [⟨"x1", "bogus_tool", []⟩]⟩

/-- A store whose conversation 1 (owner `"u1"`) holds three messages with
`created_at` 1, 2, 3 — insertion order. -/
def c5Store : Store :=
  { conversations := [{ id := 1, user_id := "u1", title := "t", created_at := 0, updated_at := 0 }],
    messages :=
      [{ id := 10, conversation_id := 1, user_id := "u1", role := "user", content := "m1",
         tool_calls := none, created_at := 1 },
       { id := 11, conversation_id := 1, user_id := "u1", role := "assistant", content := "m2",
         tool_calls := none, created_at := 2 },
       { id := 12, conversation_id := 1, user_id := "u1", role := "user", content := "m3",
         tool_calls := none, created_at := 3 }],
    now := 4 }

/-! ## Theorems -/

/-- C2 (code bug): in Scenario B — first completion response requests one
`add_task` call with a valid title, execution succeeds, second response is
plain text — the store ends the turn with exactly TWO persisted messages,
`user` then `assistant`, not the four the spec states: the `tool`-role
write inside the round is rejected by `append_message`'s role check
(`role not in ('user', 'assistant')`), the synthetic assistant tool-call
message is only added to the in-memory history, and the executed call is
not even reported in `tool_calls_executed` because the recursive
invocation's plain-text round returns `tool_calls_made = None`. -/
theorem scenario_b_persists_two_messages :
    (ChatService.process_chat_message scenBOracle cStore 1 "u1"
        "Add a task to buy milk").store.messages.map (fun m => m.role)
      = ["user", "assistant"]
    ∧ (ChatService.process_chat_message scenBOracle cStore 1 "u1"
        "Add a task to buy milk").success = true
    ∧ (ChatService.process_chat_message scenBOracle cStore 1 "u1"
        "Add a task to buy milk").response = "Added!"
    ∧ (ChatService.process_chat_message scenBOracle cStore 1 "u1"
        "Add a task to buy milk").tool_calls_executed = [] :=
  ⟨rfl, rfl, rfl, rfl⟩

/-- C3 (code bug): `append_message` on an owned conversation accepts roles
`user` and `assistant` but rejects `tool` with `ValueError` before any
persistence (store unchanged) — although the orchestration loop itself
appends tool results with `role="tool"`, so the spec's
`{user, assistant, tool}` role set is the evident intent. -/
theorem append_message_rejects_tool_role :
    ConversationService.append_message cStore 1 "u1" "tool" "Tool result" none true
      = (.error (.invalidRole "tool"), cStore)
    ∧ (ConversationService.append_message cStore 1 "u1" "user" "hi" none true).1
      = .ok { id := 1, conversation_id := 1, user_id := "u1", role := "user",
              content := "hi", tool_calls := none, created_at := 1 }
    ∧ (ConversationService.append_message cStore 1 "u1" "assistant" "ok" none true).1
      = .ok { id := 1, conversation_id := 1, user_id := "u1", role := "assistant",
              content := "ok", tool_calls := none, created_at := 1 } :=
  ⟨rfl, rfl, rfl⟩

/-- C5 (code bug): `get_recent_messages` with limit 2 on a conversation
holding three messages (`created_at` 1, 2, 3) returns the two OLDEST
(`created_at` 1, 2): the query orders ascending and then limits, so the
n most-recently-created messages of the claim are exactly what a long
conversation loses. -/
theorem get_recent_messages_returns_oldest :
    (ConversationService.get_recent_messages c5Store 1 "u1" 2).map (fun m => m.created_at)
      = [1, 2]
    ∧ c5Store.messages.map (fun m => m.created_at) = [1, 2, 3] :=
  ⟨rfl, rfl⟩

/-- C1 counterexample: with a registered tool call executed in each of the
three rounds (ids `"a"`, `"b"`, `"c"`), the value returned at the retry
bound carries records naming only the LAST round's call (twice: its
result record plus the error record from the failing `tool`-role write) —
so the loop does not return "the tool calls executed so far", refuting
that conjunct of the claim. -/
theorem retry_bound_drops_prior_round_records_cex :
    (invokeAgent cexOracle [] "u1" 1 cStore 0 0).executedIds = ["a", "b", "c"]
    ∧ ((invokeAgent cexOracle [] "u1" 1 cStore 0 0).tool_calls_made.getD []).map
        ToolRecord.recId = ["c", "c"] :=
  ⟨rfl, rfl⟩

/-- C6 counterexample: a round whose only request names the unregistered
tool `"bogus_tool"` ends the turn with `tool_calls_made = some []` — the
skipped call produces NO failed execution record (the `continue` records
nothing), refuting the claim's "recorded as a failed execution record";
the turn still completes successfully. -/
theorem unknown_tool_unrecorded_cex :
    (invokeAgent bogusOracle [] "u1" 1 cStore 0 0).tool_calls_made = some []
    ∧ (invokeAgent bogusOracle [] "u1" 1 cStore 0 0).executedIds = []
    ∧ (invokeAgent bogusOracle [] "u1" 1 cStore 0 0).success = true :=
  ⟨rfl, rfl, rfl⟩

/-- C9 counterexample: `add_task{title: "a"}` is accepted and normalized,
but re-validating the normalized output raises (uncaught
`AttributeError`: the emitted `description: None` hits `.strip()`), so
`validate(validate(x))` is not `validate(x)` — validation is not
idempotent as claimed. -/
theorem validate_idempotence_cex :
    validate_tool_input "add_task" [("title", .pstr "a")]
      = .ok [("title", .pstr "a"), ("description", .pnone),
             ("priority", .pstr "medium"), ("due_date", .pnone)]
    ∧ validate_tool_input "add_task"
        [("title", .pstr "a"), ("description", .pnone),
         ("priority", .pstr "medium"), ("due_date", .pnone)]
      = .error .attributeErr :=
  ⟨rfl, rfl⟩

/-- C4: non-owner lookups are indistinguishable from lookups of an absent
id.  If every conversation carrying id `cid` is owned by `u1` and
`u1 ≠ u2`, then `get_by_id cid u2` is `none` — exactly the result for an
id that exists nowhere — and `get_recent_messages` hands `u2` no message
of the conversation (empty list). -/
theorem conversation_isolation (s : Store) (u1 u2 : String) (cid n : Nat)
    (hne : u1 ≠ u2)
    (hown : ∀ c ∈ s.conversations, c.id = cid → c.user_id = u1) :
    ConversationRepository.get_by_id s cid u2 = none
    ∧ ConversationService.get_recent_messages s cid u2 n = []
    ∧ ∀ gid, (∀ c ∈ s.conversations, c.id ≠ gid) →
        ConversationRepository.get_by_id s gid u2
          = ConversationRepository.get_by_id s cid u2 := by
  have hnone : ConversationRepository.get_by_id s cid u2 = none := by
    unfold ConversationRepository.get_by_id
    apply List.find?_eq_none.mpr
    intro c hc
    simp only [Bool.and_eq_true, beq_iff_eq, not_and]
    intro hid hu
    exact hne (((hown c hc hid) ▸ hu : u1 = u2))
  refine ⟨hnone, ?_, ?_⟩
  · simp only [ConversationService.get_recent_messages, hnone]
  · intro gid hg
    have : ConversationRepository.get_by_id s gid u2 = none := by
      unfold ConversationRepository.get_by_id
      apply List.find?_eq_none.mpr
      intro c hc
      simp only [Bool.and_eq_true, beq_iff_eq, not_and]
      intro hid _
      exact hg c hc hid
    rw [this, hnone]

/-- C4 witness: the isolation theorem applied to the concrete one-owner
store (`cStore`, conversation 1 owned by `"u1"`) and the non-owner
`"u2"`. -/
theorem conversation_isolation_witness :
    ConversationRepository.get_by_id cStore 1 "u2" = none
    ∧ ConversationService.get_recent_messages cStore 1 "u2" 50 = []
    ∧ ∀ gid, (∀ c ∈ cStore.conversations, c.id ≠ gid) →
        ConversationRepository.get_by_id cStore gid "u2"
          = ConversationRepository.get_by_id cStore 1 "u2" :=
  conversation_isolation cStore "u1" "u2" 1 50 (by decide)
    (by intro c hc hid; simp only [cStore, List.mem_singleton] at hc; rw [hc])

/-- C8: `append_message` is all-or-nothing.  On success the returned
store holds exactly the old messages plus the new message (stamped with
the current clock) and every conversation matching the owner filter has
`updated_at` advanced to that same clock, other rows unchanged; on any
failure — invalid role, ownership failure, or persistence failure at
commit — the returned store is the input store, untouched. -/
theorem append_message_atomic (s : Store) (cid : Nat) (uid role content : String)
    (tc : Option PyVal) (commitOk : Bool) :
    (∀ m, (ConversationService.append_message s cid uid role content tc commitOk).1 = .ok m →
        (ConversationService.append_message s cid uid role content tc commitOk).2.messages
            = s.messages ++ [m]
        ∧ m.created_at = s.now ∧ m.role = role ∧ m.content = content
        ∧ (∀ c ∈ (ConversationService.append_message s cid uid role content tc commitOk).2.conversations,
            c.id = cid ∧ c.user_id = uid → c.updated_at = s.now)
        ∧ (∀ c ∈ (ConversationService.append_message s cid uid role content tc commitOk).2.conversations,
            ¬ (c.id = cid ∧ c.user_id = uid) → c ∈ s.conversations))
    ∧ (∀ e, (ConversationService.append_message s cid uid role content tc commitOk).1 = .error e →
        (ConversationService.append_message s cid uid role content tc commitOk).2 = s) := by
  unfold ConversationService.append_message
  split
  · exact ⟨fun m hm => (nomatch hm), fun e _ => rfl⟩
  · split
    · exact ⟨fun m hm => (nomatch hm), fun e _ => rfl⟩
    · cases commitOk with
      | false => exact ⟨fun m hm => (nomatch hm), fun e _ => rfl⟩
      | true =>
          simp only [reduceIte]
          refine ⟨fun m hm => ?_, fun e he => nomatch he⟩
          have hmv :
              m = { id := s.now, conversation_id := cid, user_id := uid,
                    role := role, content := content, tool_calls := tc,
                    created_at := s.now } := by
            simpa using hm.symm
          subst hmv
          refine ⟨rfl, rfl, rfl, rfl, ?_, ?_⟩
          · intro c hc hmatch
            simp only [List.mem_map] at hc
            obtain ⟨c0, hc0, hfc⟩ := hc
            by_cases h0 : c0.id = cid ∧ c0.user_id = uid
            · rw [if_pos h0] at hfc
              rw [← hfc]
            · rw [if_neg h0] at hfc
              exact absurd (hfc ▸ hmatch) h0
          · intro c hc hmatch
            simp only [List.mem_map] at hc
            obtain ⟨c0, hc0, hfc⟩ := hc
            by_cases h0 : c0.id = cid ∧ c0.user_id = uid
            · rw [if_pos h0] at hfc
              exact absurd ⟨hfc ▸ h0.1, hfc ▸ h0.2⟩ hmatch
            · rw [if_neg h0] at hfc
              exact hfc ▸ hc0

/-- C8 witness: the atomicity theorem applied at a concrete successful
append (role `user` on the owned conversation of `cStore`) and a concrete
failing one (role `tool`), with the hypotheses discharged by evaluation. -/
theorem append_message_atomic_witness :
    (ConversationService.append_message cStore 1 "u1" "user" "hi" none true).2.messages
        = cStore.messages
          ++ [{ id := 1, conversation_id := 1, user_id := "u1", role := "user",
                content := "hi", tool_calls := none, created_at := 1 }]
    ∧ (ConversationService.append_message cStore 1 "u1" "tool" "hi" none true).2 = cStore :=
  ⟨((append_message_atomic cStore 1 "u1" "user" "hi" none true).1
      { id := 1, conversation_id := 1, user_id := "u1", role := "user",
        content := "hi", tool_calls := none, created_at := 1 } rfl).1,
   (append_message_atomic cStore 1 "u1" "tool" "hi" none true).2
      (.invalidRole "tool") rfl⟩

/-- A string with a non-empty prefix is non-empty. -/
theorem append_ne_empty (a b : String) (h : a.data ≠ []) : a ++ b ≠ "" := by
  intro hab
  apply h
  have hd : (a ++ b).data = a.data ++ b.data := by
    cases a; cases b; rfl
  rw [hab] at hd
  exact (List.append_eq_nil.mp hd.symm).1

/-- C7: the executor rejects over-length `add_task` inputs without
truncating.  A title longer than 200 characters after trimming yields the
failure record naming `title`; with a valid title, a description longer
than 1024 characters after trimming yields the failure record naming
`description`.  In both cases `success = false` and `result = None`: the
(mock) task creation is never reached, so no domain mutation occurs. -/
theorem add_task_overlong_rejected (args : List (String × PyVal)) (user_id : String)
    (conversation_id seed : Nat) :
    (∀ t, dget args "title" = some (.pstr t) → 200 < (pyStrip t).length →
        ToolExecutor.execute "add_task" args user_id conversation_id seed
          = { success := false, tool_name := "add_task", result := .pnone,
              error := some "Validation error: title must be max 200 characters" })
    ∧ (∀ t d, dget args "title" = some (.pstr t) → pyStrip t ≠ "" →
        (pyStrip t).length ≤ 200 →
        dget args "description" = some (.pstr d) → 1024 < (pyStrip d).length →
        ToolExecutor.execute "add_task" args user_id conversation_id seed
          = { success := false, tool_name := "add_task", result := .pnone,
              error := some "Validation error: description must be max 1024 characters" }) := by
  constructor
  · intro t ht hlen
    have hne : ¬ (pyStrip t = "") := by
      intro h0
      rw [h0] at hlen
      simp at hlen
    have hd : ToolExecutor.dispatch "add_task" args seed
        = .error (.toolValidation "title must be max 200 characters") := by
      unfold ToolExecutor.dispatch ToolExecutor.executeAddTask
      simp [ht, hne, hlen]
    unfold ToolExecutor.execute
    rw [hd]
    rfl
  · intro t d ht hne hle hdd hdlen
    have hdne : pyStrip d ≠ "" := by
      intro h0
      rw [h0] at hdlen
      simp at hdlen
    have hd : ToolExecutor.dispatch "add_task" args seed
        = .error (.toolValidation "description must be max 1024 characters") := by
      unfold ToolExecutor.dispatch ToolExecutor.executeAddTask
      simp [ht, hne, hdd, Nat.not_lt.mpr hle, hdne, hdlen]
    unfold ToolExecutor.execute
    rw [hd]
    rfl

set_option maxRecDepth 8000 in
/-- C7 witness: the rejection theorem applied to a 201-character title and
to a 1025-character description, hypotheses discharged by evaluation. -/
theorem add_task_overlong_rejected_witness :
    ToolExecutor.execute "add_task"
        [("title", .pstr (String.mk (List.replicate 201 'x')))] "u1" 1 0
      = { success := false, tool_name := "add_task", result := .pnone,
          error := some "Validation error: title must be max 200 characters" }
    ∧ ToolExecutor.execute "add_task"
        [("title", .pstr "ok"), ("description", .pstr (String.mk (List.replicate 1025 'd')))]
        "u1" 1 0
      = { success := false, tool_name := "add_task", result := .pnone,
          error := some "Validation error: description must be max 1024 characters" } :=
  ⟨(add_task_overlong_rejected
      [("title", .pstr (String.mk (List.replicate 201 'x')))] "u1" 1 0).1
      (String.mk (List.replicate 201 'x')) rfl (by decide),
   (add_task_overlong_rejected
      [("title", .pstr "ok"), ("description", .pstr (String.mk (List.replicate 1025 'd')))]
      "u1" 1 0).2
      "ok" (String.mk (List.replicate 1025 'd')) rfl (by decide) (by decide) rfl (by decide)⟩

/-- Handler `_execute_add_task` never raises `ToolNotFoundError`. -/
theorem executeAddTask_not_notFound (args : List (String × PyVal)) (seed : Nat)
    (m : String) : ToolExecutor.executeAddTask args seed ≠ .error (.toolNotFound m) := by
  unfold ToolExecutor.executeAddTask
  intro h
  dsimp only [] at h
  (repeat' split at h) <;> simp_all

/-- Handler `_execute_list_tasks` never raises `ToolNotFoundError`. -/
theorem executeListTasks_not_notFound (args : List (String × PyVal)) (m : String) :
    ToolExecutor.executeListTasks args ≠ .error (.toolNotFound m) := by
  unfold ToolExecutor.executeListTasks
  intro h
  dsimp only [] at h
  (repeat' split at h) <;> simp_all

/-- Handler `_execute_complete_task` never raises `ToolNotFoundError`. -/
theorem executeCompleteTask_not_notFound (args : List (String × PyVal)) (seed : Nat)
    (m : String) : ToolExecutor.executeCompleteTask args seed ≠ .error (.toolNotFound m) := by
  unfold ToolExecutor.executeCompleteTask
  intro h
  dsimp only [] at h
  (repeat' split at h) <;> simp_all

/-- Handler `_execute_delete_task` never raises `ToolNotFoundError`. -/
theorem executeDeleteTask_not_notFound (args : List (String × PyVal)) (seed : Nat)
    (m : String) : ToolExecutor.executeDeleteTask args seed ≠ .error (.toolNotFound m) := by
  unfold ToolExecutor.executeDeleteTask
  intro h
  dsimp only [] at h
  (repeat' split at h) <;> simp_all

/-- The update-task tails never raise `ToolNotFoundError`. -/
theorem updateTaskAfterDescription_not_notFound (args : List (String × PyVal)) (seed : Nat)
    (task_id title : PyVal) (m : String) :
    ToolExecutor.updateTaskAfterDescription args seed task_id title
      ≠ .error (.toolNotFound m) := by
  unfold ToolExecutor.updateTaskAfterDescription
  intro h
  dsimp only [] at h
  (repeat' split at h) <;> simp_all

/-- The update-task title tail never raises `ToolNotFoundError`. -/
theorem updateTaskAfterTitle_not_notFound (args : List (String × PyVal)) (seed : Nat)
    (task_id title : PyVal) (m : String) :
    ToolExecutor.updateTaskAfterTitle args seed task_id title
      ≠ .error (.toolNotFound m) := by
  unfold ToolExecutor.updateTaskAfterTitle
  intro h
  dsimp only [] at h
  (repeat' split at h) <;>
    first
      | exact updateTaskAfterDescription_not_notFound _ _ _ _ m h
      | simp_all

/-- Handler `_execute_update_task` never raises `ToolNotFoundError`. -/
theorem executeUpdateTask_not_notFound (args : List (String × PyVal)) (seed : Nat)
    (m : String) : ToolExecutor.executeUpdateTask args seed ≠ .error (.toolNotFound m) := by
  unfold ToolExecutor.executeUpdateTask
  intro h
  dsimp only [] at h
  (repeat' split at h) <;>
    first
      | exact updateTaskAfterTitle_not_notFound _ _ _ _ m h
      | simp_all

/-- The only `ToolNotFoundError` out of the dispatch is the registry miss,
whose message is `"Unknown tool: " ++ tool_name`. -/
theorem dispatch_notFound_msg (tool_name : String) (args : List (String × PyVal))
    (seed : Nat) (m : String)
    (h : ToolExecutor.dispatch tool_name args seed = .error (.toolNotFound m)) :
    m = "Unknown tool: " ++ tool_name := by
  unfold ToolExecutor.dispatch at h
  (repeat' split at h) <;>
    first
      | exact absurd h (executeAddTask_not_notFound args seed m)
      | exact absurd h (executeListTasks_not_notFound args m)
      | exact absurd h (executeCompleteTask_not_notFound args seed m)
      | exact absurd h (executeDeleteTask_not_notFound args seed m)
      | exact absurd h (executeUpdateTask_not_notFound args seed m)
      | (injection h with h1; injection h1 with h2; exact h2.symm)

/-- C10: `ToolExecutor.execute` is total and shape-stable: for every tool
name, argument dict and caller it returns the
`{success, tool_name, result, error}` record with the echoed tool name,
and either `success = true` with `error = None`, or `success = false`
with `result = None` and a non-empty error string — validation failures,
unknown tools and handler exceptions all land in the second branch
instead of escaping. -/
theorem executor_execute_total_shape (tool_name : String) (args : List (String × PyVal))
    (user_id : String) (conversation_id seed : Nat) :
    (ToolExecutor.execute tool_name args user_id conversation_id seed).tool_name = tool_name
    ∧ (((ToolExecutor.execute tool_name args user_id conversation_id seed).success = true
        ∧ (ToolExecutor.execute tool_name args user_id conversation_id seed).error = none)
      ∨ ((ToolExecutor.execute tool_name args user_id conversation_id seed).success = false
        ∧ (ToolExecutor.execute tool_name args user_id conversation_id seed).result = .pnone
        ∧ ∃ msg, (ToolExecutor.execute tool_name args user_id conversation_id seed).error
              = some msg ∧ msg ≠ "")) := by
  unfold ToolExecutor.execute
  cases hd : ToolExecutor.dispatch tool_name args seed with
  | ok r => exact ⟨rfl, .inl ⟨rfl, rfl⟩⟩
  | error e =>
      cases e with
      | toolValidation m =>
          exact ⟨rfl, .inr ⟨rfl, rfl,
            ⟨"Validation error: " ++ m, rfl, append_ne_empty _ m (by decide)⟩⟩⟩
      | toolNotFound m =>
          have hm := dispatch_notFound_msg tool_name args seed m hd
          subst hm
          exact ⟨rfl, .inr ⟨rfl, rfl,
            ⟨"Unknown tool: " ++ tool_name, rfl, append_ne_empty _ tool_name (by decide)⟩⟩⟩
      | otherExc m =>
          exact ⟨rfl, .inr ⟨rfl, rfl,
            ⟨"Execution error: " ++ m, rfl, append_ne_empty _ m (by decide)⟩⟩⟩

/-- C9 (amended): validation idempotence holds for the tools whose
normalized output contains no `None` placeholder or parsed datetime —
`complete_task`, `delete_task` and `list_tasks`: any accepted input's
normalized output is accepted unchanged on re-validation.  (For
`add_task` — and `update_task` with optional fields — the normalized
output is rejected on re-validation; see the counterexample.) -/
theorem validate_idempotent_id_tools :
    (∀ x v, validate_tool_input "complete_task" x = .ok v →
        validate_tool_input "complete_task" v = .ok v)
    ∧ (∀ x v, validate_tool_input "delete_task" x = .ok v →
        validate_tool_input "delete_task" v = .ok v)
    ∧ (∀ x v, validate_tool_input "list_tasks" x = .ok v →
        validate_tool_input "list_tasks" v = .ok v) := by
  refine ⟨?_, ?_, ?_⟩
  · intro x v h
    replace h : validate_complete_task_input x = .ok v := h
    show validate_complete_task_input v = .ok v
    unfold validate_complete_task_input at h ⊢
    cases hx : dget x "task_id" with
    | none => rw [hx] at h; exact (nomatch h)
    | some tid =>
        rw [hx] at h
        dsimp only [] at h
        by_cases hu : uuidAccepted tid = true
        · rw [if_pos hu] at h
          injection h with hv
          subst hv
          simp [dget, hu]
        · rw [if_neg hu] at h
          exact (nomatch h)
  · intro x v h
    replace h : validate_delete_task_input x = .ok v := h
    show validate_delete_task_input v = .ok v
    unfold validate_delete_task_input at h ⊢
    cases hx : dget x "task_id" with
    | none => rw [hx] at h; exact (nomatch h)
    | some tid =>
        rw [hx] at h
        dsimp only [] at h
        by_cases hu : uuidAccepted tid = true
        · rw [if_pos hu] at h
          injection h with hv
          subst hv
          simp [dget, hu]
        · rw [if_neg hu] at h
          exact (nomatch h)
  · intro x v h
    replace h : validate_list_tasks_input x = .ok v := h
    show validate_list_tasks_input v = .ok v
    unfold validate_list_tasks_input at h ⊢
    dsimp only [] at h
    set st := (dget x "status").getD (.pstr "all") with hst
    split at h
    · exact (nomatch h)
    · next hs =>
        have hs2 : isListStatus st = true := by simpa using hs
        cases hl : pyToInt ((dget x "limit").getD (.pint 50)) with
        | none => rw [hl] at h; exact (nomatch h)
        | some limit =>
            rw [hl] at h
            dsimp only [] at h
            split at h
            · exact (nomatch h)
            · next hb =>
                cases ho : pyToInt ((dget x "offset").getD (.pint 0)) with
                | none => rw [ho] at h; exact (nomatch h)
                | some offset =>
                    rw [ho] at h
                    dsimp only [] at h
                    split at h
                    · exact (nomatch h)
                    · next hof =>
                        injection h with hv
                        subst hv
                        simp [dget, List.find?, pyToInt, hs2, hb, hof]

/-- C9 witness: the idempotence theorem applied at a concrete accepted
input per tool (a canonical UUID for the id tools, the empty dict for
`list_tasks`), the acceptance hypotheses discharged by evaluation. -/
theorem validate_idempotent_id_tools_witness :
    validate_tool_input "complete_task"
        [("task_id", .pstr "00000000-0000-4000-8000-000000000001")]
      = .ok [("task_id", .pstr "00000000-0000-4000-8000-000000000001")]
    ∧ validate_tool_input "delete_task"
        [("task_id", .pstr "00000000-0000-4000-8000-000000000001")]
      = .ok [("task_id", .pstr "00000000-0000-4000-8000-000000000001")]
    ∧ validate_tool_input "list_tasks"
        [("status", .pstr "all"), ("limit", .pint 50), ("offset", .pint 0)]
      = .ok [("status", .pstr "all"), ("limit", .pint 50), ("offset", .pint 0)] :=
  ⟨validate_idempotent_id_tools.1
      [("task_id", .pstr "00000000-0000-4000-8000-000000000001")]
      [("task_id", .pstr "00000000-0000-4000-8000-000000000001")] rfl,
   validate_idempotent_id_tools.2.1
      [("task_id", .pstr "00000000-0000-4000-8000-000000000001")]
      [("task_id", .pstr "00000000-0000-4000-8000-000000000001")] rfl,
   validate_idempotent_id_tools.2.2 []
      [("status", .pstr "all"), ("limit", .pint 50), ("offset", .pint 0)] rfl⟩

/-- Every record the round loop accumulates names a registered tool:
unregistered names are `continue`d over without a record. -/
theorem runToolCallsAux_records_names (uid : String) (cid : Nat) :
    ∀ (calls : List ToolCallReq) (i : Nat) (s : Store) (recs : List ToolRecord)
      (ex : Nat) (ids : List String),
      (∀ rec ∈ recs, validate_tool_name rec.recName = true) →
      ∀ rec ∈ (runToolCallsAux uid cid calls i s recs ex ids).records,
        validate_tool_name rec.recName = true := by
  intro calls
  induction calls with
  | nil =>
      intro i s recs ex ids hinv rec hrec
      exact hinv rec hrec
  | cons c rest ih =>
      intro i s recs ex ids hinv rec hrec
      unfold runToolCallsAux at hrec
      dsimp only [] at hrec
      split at hrec
      · exact hinv rec hrec
      · split at hrec
        · exact ih _ _ _ _ _ hinv rec hrec
        · next hval =>
            have hv : validate_tool_name c.name = true := by simpa using hval
            split at hrec
            · refine ih _ _ _ _ _ ?_ rec hrec
              intro r hr
              rcases List.mem_append.mp hr with hold | hnew
              · exact hinv r hold
              · simp only [List.mem_singleton] at hnew
                subst hnew
                exact hv
            · refine ih _ _ _ _ _ ?_ rec hrec
              intro r hr
              rcases List.mem_append.mp hr with hold | hnew
              · exact hinv r hold
              · simp only [List.mem_cons, List.not_mem_nil, or_false] at hnew
                rcases hnew with h1 | h1 <;> (subst h1; exact hv)

/-- Every tool-call id that reaches the executor belongs to a request in
the round whose name is registered. -/
theorem runToolCallsAux_executed_sub (uid : String) (cid : Nat) :
    ∀ (calls : List ToolCallReq) (i : Nat) (s : Store) (recs : List ToolRecord)
      (ex : Nat) (ids : List String),
      ∀ j ∈ (runToolCallsAux uid cid calls i s recs ex ids).executedIds,
        j ∈ ids ∨ ∃ c ∈ calls, c.id = j ∧ validate_tool_name c.name = true := by
  intro calls
  induction calls with
  | nil =>
      intro i s recs ex ids j hj
      exact .inl hj
  | cons c rest ih =>
      intro i s recs ex ids j hj
      unfold runToolCallsAux at hj
      dsimp only [] at hj
      split at hj
      · exact .inl hj
      · split at hj
        · rcases ih _ _ _ _ _ j hj with hin | ⟨c2, hc2, he⟩
          · exact .inl hin
          · exact .inr ⟨c2, List.mem_cons_of_mem c hc2, he⟩
        · next hval =>
            have hv : validate_tool_name c.name = true := by simpa using hval
            split at hj <;>
            · rcases ih _ _ _ _ _ j hj with hin | ⟨c2, hc2, he⟩
              · rcases List.mem_append.mp hin with hold | hnew
                · exact .inl hold
                · simp only [List.mem_singleton] at hnew
                  exact .inr ⟨c, List.mem_cons_self c rest, hnew.symm, hv⟩
              · exact .inr ⟨c2, List.mem_cons_of_mem c hc2, he⟩

/-- The round loop performs at most `MAX_TOOL_CALLS_PER_TURN - i` further
executor invocations beyond the `ex` already counted. -/
theorem runToolCallsAux_execCount (uid : String) (cid : Nat) :
    ∀ (calls : List ToolCallReq) (i : Nat) (s : Store) (recs : List ToolRecord)
      (ex : Nat) (ids : List String),
      (runToolCallsAux uid cid calls i s recs ex ids).execCount
        ≤ ex + (MAX_TOOL_CALLS_PER_TURN - i) := by
  intro calls
  induction calls with
  | nil =>
      intro i s recs ex ids
      exact Nat.le_add_right ex _
  | cons c rest ih =>
      intro i s recs ex ids
      unfold runToolCallsAux
      dsimp only []
      split
      · exact Nat.le_add_right ex _
      · next hge =>
          have hi : i < MAX_TOOL_CALLS_PER_TURN := Nat.not_le.mp hge
          split
          · exact le_trans (ih _ _ _ _ _) (by omega)
          · split
            · exact le_trans (ih _ _ _ _ _) (by omega)
            · exact le_trans (ih _ _ _ _ _) (by omega)

/-- A round executes at most `MAX_TOOL_CALLS_PER_TURN` tool calls. -/
theorem runToolCalls_execCount_le (s : Store) (uid : String) (cid : Nat)
    (calls : List ToolCallReq) :
    (runToolCalls s uid cid calls).execCount ≤ MAX_TOOL_CALLS_PER_TURN := by
  have := runToolCallsAux_execCount uid cid calls 0 s [] 0 []
  simpa using this

/-- When every completion call returns a response (no API exception), the
loop always reports `success = True`, at any fuel/retry state. -/
theorem invokeAgentFuel_success (oracle : Nat → CompletionOutcome) (uid : String)
    (cid : Nat) (h : ∀ n, ∃ r, oracle n = .ok r) :
    ∀ (fuel : Nat) (messages : List AgentMsg) (s : Store) (retry callIdx : Nat),
      (invokeAgentFuel oracle uid cid fuel messages s retry callIdx).success = true := by
  intro fuel
  induction fuel with
  | zero =>
      intro messages s retry callIdx
      obtain ⟨r, hr⟩ := h callIdx
      unfold invokeAgentFuel
      rw [hr]
      dsimp only []
      split
      · rfl
      · split
        · rfl
        · rfl
  | succ fuel2 ih =>
      intro messages s retry callIdx
      obtain ⟨r, hr⟩ := h callIdx
      unfold invokeAgentFuel
      rw [hr]
      dsimp only []
      split
      · rfl
      · split
        · rfl
        · exact ih _ _ _ _

/-- C6 (amended): a tool-call request naming an unregistered tool is
skipped — it is never executed, never retried, and (contrary to the
original claim) leaves NO record in the round's `tool_calls_made`: every
accumulated record and every executed call names a registered tool.  The
skip is not a hard failure: with the completion service answering, the
turn still ends with `success = True`. -/
theorem unknown_tool_skipped_not_recorded (s : Store) (uid : String) (cid : Nat)
    (calls : List ToolCallReq) (oracle : Nat → CompletionOutcome)
    (msgs : List AgentMsg) (h : ∀ n, ∃ r, oracle n = .ok r) :
    (∀ rec ∈ (runToolCalls s uid cid calls).records,
        validate_tool_name rec.recName = true)
    ∧ (∀ j ∈ (runToolCalls s uid cid calls).executedIds,
        ∃ c ∈ calls, c.id = j ∧ validate_tool_name c.name = true)
    ∧ (invokeAgent oracle msgs uid cid s 0 0).success = true := by
  refine ⟨?_, ?_, ?_⟩
  · exact runToolCallsAux_records_names uid cid calls 0 s [] 0 []
      (fun r hr => absurd hr (List.not_mem_nil r))
  · intro j hj
    rcases runToolCallsAux_executed_sub uid cid calls 0 s [] 0 [] j hj with hin | hex
    · exact absurd hin (List.not_mem_nil j)
    · exact hex
  · exact invokeAgentFuel_success oracle uid cid h _ msgs s 0 0

/-- C6 witness: the skip theorem applied to the concrete round with one
unregistered request and the always-answering `bogusOracle`. -/
theorem unknown_tool_skipped_not_recorded_witness :
    (∀ rec ∈ (runToolCalls cStore "u1" 1 [⟨"x1", "bogus_tool", []⟩]).records,
        validate_tool_name rec.recName = true)
    ∧ (∀ j ∈ (runToolCalls cStore "u1" 1 [⟨"x1", "bogus_tool", []⟩]).executedIds,
        ∃ c ∈ [(⟨"x1", "bogus_tool", []⟩ : ToolCallReq)], c.id = j
          ∧ validate_tool_name c.name = true)
    ∧ (invokeAgent bogusOracle [] "u1" 1 cStore 0 0).success = true :=
  unknown_tool_skipped_not_recorded cStore "u1" 1 [⟨"x1", "bogus_tool", []⟩]
    bogusOracle [] (fun _ => ⟨⟨"hm", [⟨"x1", "bogus_tool", []⟩]⟩, rfl⟩)

/-- One non-final round of the loop: below the retry bound, with a
response requesting tools, the invocation runs the round and recurses,
prepending the round's instrumentation and passing the recursion's
response/records through. -/
theorem invokeAgentFuel_step (oracle : Nat → CompletionOutcome) (uid : String)
    (cid : Nat) (fuel2 : Nat) (messages : List AgentMsg) (s : Store)
    (retry_count callIdx : Nat) (r : CompletionResponse)
    (hr : oracle callIdx = .ok r) (hne : r.tool_calls ≠ [])
    (hlt : retry_count < MAX_RETRIES_ON_INVALID_TOOL_CALL) :
    (invokeAgentFuel oracle uid cid (fuel2 + 1) messages s retry_count callIdx).calls
        = (invokeAgentFuel oracle uid cid fuel2
            (messages
              ++ [{ role := "assistant", content := r.text, tool_calls := some r.tool_calls }]
              ++ (runToolCalls s uid cid r.tool_calls).records.map recordToToolMsg)
            (runToolCalls s uid cid r.tool_calls).store (retry_count + 1) (callIdx + 1)).calls
          + 1
    ∧ (invokeAgentFuel oracle uid cid (fuel2 + 1) messages s retry_count callIdx).roundExecs
        = (runToolCalls s uid cid r.tool_calls).execCount ::
          (invokeAgentFuel oracle uid cid fuel2
            (messages
              ++ [{ role := "assistant", content := r.text, tool_calls := some r.tool_calls }]
              ++ (runToolCalls s uid cid r.tool_calls).records.map recordToToolMsg)
            (runToolCalls s uid cid r.tool_calls).store (retry_count + 1) (callIdx + 1)).roundExecs
    ∧ (invokeAgentFuel oracle uid cid (fuel2 + 1) messages s retry_count callIdx).success
        = (invokeAgentFuel oracle uid cid fuel2
            (messages
              ++ [{ role := "assistant", content := r.text, tool_calls := some r.tool_calls }]
              ++ (runToolCalls s uid cid r.tool_calls).records.map recordToToolMsg)
            (runToolCalls s uid cid r.tool_calls).store (retry_count + 1) (callIdx + 1)).success
    ∧ (invokeAgentFuel oracle uid cid (fuel2 + 1) messages s retry_count callIdx).response
        = (invokeAgentFuel oracle uid cid fuel2
            (messages
              ++ [{ role := "assistant", content := r.text, tool_calls := some r.tool_calls }]
              ++ (runToolCalls s uid cid r.tool_calls).records.map recordToToolMsg)
            (runToolCalls s uid cid r.tool_calls).store (retry_count + 1) (callIdx + 1)).response
    ∧ (invokeAgentFuel oracle uid cid (fuel2 + 1) messages s retry_count callIdx).roundRecords
        = (runToolCalls s uid cid r.tool_calls).records ::
          (invokeAgentFuel oracle uid cid fuel2
            (messages
              ++ [{ role := "assistant", content := r.text, tool_calls := some r.tool_calls }]
              ++ (runToolCalls s uid cid r.tool_calls).records.map recordToToolMsg)
            (runToolCalls s uid cid r.tool_calls).store (retry_count + 1) (callIdx + 1)).roundRecords
    ∧ (invokeAgentFuel oracle uid cid (fuel2 + 1) messages s retry_count callIdx).tool_calls_made
        = (invokeAgentFuel oracle uid cid fuel2
            (messages
              ++ [{ role := "assistant", content := r.text, tool_calls := some r.tool_calls }]
              ++ (runToolCalls s uid cid r.tool_calls).records.map recordToToolMsg)
            (runToolCalls s uid cid r.tool_calls).store (retry_count + 1) (callIdx + 1)).tool_calls_made := by
  have hEmpty : r.tool_calls.isEmpty = false := by
    simpa using hne
  refine ⟨?_, ?_, ?_, ?_, ?_, ?_⟩ <;>
  · conv_lhs => unfold invokeAgentFuel
    rw [hr]
    dsimp only []
    rw [hEmpty]
    rw [if_neg (by simp), if_neg (Nat.not_le.mpr hlt)]

/-- The final round of the loop: at the retry bound, with a response
requesting tools, the invocation runs the round and returns the current
assistant text and the current round's records, whatever the fuel. -/
theorem invokeAgentFuel_at_bound (oracle : Nat → CompletionOutcome) (uid : String)
    (cid : Nat) (fuel : Nat) (messages : List AgentMsg) (s : Store)
    (retry_count callIdx : Nat) (r : CompletionResponse)
    (hr : oracle callIdx = .ok r) (hne : r.tool_calls ≠ [])
    (hge : MAX_RETRIES_ON_INVALID_TOOL_CALL ≤ retry_count) :
    invokeAgentFuel oracle uid cid fuel messages s retry_count callIdx
      = { success := true, error := none, response := r.text,
          tool_calls_made := some (runToolCalls s uid cid r.tool_calls).records,
          store := (runToolCalls s uid cid r.tool_calls).store, calls := 1,
          roundExecs := [(runToolCalls s uid cid r.tool_calls).execCount],
          roundRecords := [(runToolCalls s uid cid r.tool_calls).records],
          executedIds := (runToolCalls s uid cid r.tool_calls).executedIds } := by
  have hEmpty : r.tool_calls.isEmpty = false := by
    simpa using hne
  unfold invokeAgentFuel
  rw [hr]
  dsimp only []
  rw [hEmpty]
  rw [if_neg (by simp), if_pos hge]

/-- C1 (amended): starting at `retry_count = 0` against completion
responses that always request at least one tool call, the loop makes
exactly `MAX_RETRIES_ON_INVALID_TOOL_CALL + 1 = 3` completion-service
calls, executes at most `MAX_TOOL_CALLS_PER_TURN = 5` tool calls in each
of its 3 rounds, and at the retry bound returns the last round's
assistant text verbatim (even if empty) as a successful reply — together
with the LAST round's tool-call records only (the records returned are
exactly the final element of the per-round record list; earlier rounds'
executed calls are not included). -/
theorem invoke_agent_bounded_loop (oracle : Nat → CompletionOutcome)
    (msgs : List AgentMsg) (uid : String) (cid : Nat) (s : Store)
    (h : ∀ n, n ≤ MAX_RETRIES_ON_INVALID_TOOL_CALL →
        ∃ r, oracle n = .ok r ∧ r.tool_calls ≠ []) :
    (invokeAgent oracle msgs uid cid s 0 0).calls = MAX_RETRIES_ON_INVALID_TOOL_CALL + 1
    ∧ (∀ k ∈ (invokeAgent oracle msgs uid cid s 0 0).roundExecs,
        k ≤ MAX_TOOL_CALLS_PER_TURN)
    ∧ (invokeAgent oracle msgs uid cid s 0 0).success = true
    ∧ (∀ r2, oracle 2 = .ok r2 → (invokeAgent oracle msgs uid cid s 0 0).response = r2.text)
    ∧ (invokeAgent oracle msgs uid cid s 0 0).roundRecords.length
        = MAX_RETRIES_ON_INVALID_TOOL_CALL + 1
    ∧ (invokeAgent oracle msgs uid cid s 0 0).tool_calls_made
        = (invokeAgent oracle msgs uid cid s 0 0).roundRecords.getLast? := by
  obtain ⟨r0, h0, hn0⟩ := h 0 (by decide)
  obtain ⟨r1, h1, hn1⟩ := h 1 (by decide)
  obtain ⟨r2, h2, hn2⟩ := h 2 (by decide)
  have E0 := invokeAgentFuel_step oracle uid cid 2 msgs s 0 0 r0 h0 hn0 (by decide)
  obtain ⟨e0c, e0x, e0s, e0r, e0rr, e0t⟩ := E0
  have E1 := invokeAgentFuel_step oracle uid cid 1
    (msgs ++ [{ role := "assistant", content := r0.text, tool_calls := some r0.tool_calls }]
      ++ (runToolCalls s uid cid r0.tool_calls).records.map recordToToolMsg)
    (runToolCalls s uid cid r0.tool_calls).store 1 1 r1 h1 hn1 (by decide)
  obtain ⟨e1c, e1x, e1s, e1r, e1rr, e1t⟩ := E1
  have E2 := invokeAgentFuel_at_bound oracle uid cid 1
    ((msgs ++ [{ role := "assistant", content := r0.text, tool_calls := some r0.tool_calls }]
        ++ (runToolCalls s uid cid r0.tool_calls).records.map recordToToolMsg)
      ++ [{ role := "assistant", content := r1.text, tool_calls := some r1.tool_calls }]
      ++ (runToolCalls ((runToolCalls s uid cid r0.tool_calls).store) uid cid
            r1.tool_calls).records.map recordToToolMsg)
    ((runToolCalls ((runToolCalls s uid cid r0.tool_calls).store) uid cid
        r1.tool_calls).store) 2 2 r2 h2 hn2 (by decide)
  have hAgent : invokeAgent oracle msgs uid cid s 0 0
      = invokeAgentFuel oracle uid cid (2 + 1) msgs s 0 0 := rfl
  refine ⟨?_, ?_, ?_, ?_, ?_, ?_⟩
  · rw [hAgent, e0c, e1c, E2]
    rfl
  · intro k hk
    rw [hAgent, e0x, e1x, E2] at hk
    simp only [List.mem_cons, List.not_mem_nil, or_false] at hk
    rcases hk with hk | hk | hk <;>
      (subst hk; exact runToolCalls_execCount_le _ _ _ _)
  · rw [hAgent, e0s, e1s, E2]
  · intro r2x hr2x
    have : r2x = r2 := by
      rw [h2] at hr2x
      injection hr2x with hh
      exact hh.symm
    subst this
    rw [hAgent, e0r, e1r, E2]
  · rw [hAgent, e0rr, e1rr, E2]
    rfl
  · rw [hAgent, e0t, e1t, E2, e0rr, e1rr, E2]
    rfl

/-- C1 witness: the bounded-loop theorem applied to the concrete
always-requesting oracle `cexOracle` on the one-conversation store. -/
theorem invoke_agent_bounded_loop_witness :
    (invokeAgent cexOracle [] "u1" 1 cStore 0 0).calls
        = MAX_RETRIES_ON_INVALID_TOOL_CALL + 1
    ∧ (∀ k ∈ (invokeAgent cexOracle [] "u1" 1 cStore 0 0).roundExecs,
        k ≤ MAX_TOOL_CALLS_PER_TURN)
    ∧ (invokeAgent cexOracle [] "u1" 1 cStore 0 0).success = true
    ∧ (∀ r2, cexOracle 2 = .ok r2 →
        (invokeAgent cexOracle [] "u1" 1 cStore 0 0).response = r2.text)
    ∧ (invokeAgent cexOracle [] "u1" 1 cStore 0 0).roundRecords.length
        = MAX_RETRIES_ON_INVALID_TOOL_CALL + 1
    ∧ (invokeAgent cexOracle [] "u1" 1 cStore 0 0).tool_calls_made
        = (invokeAgent cexOracle [] "u1" 1 cStore 0 0).roundRecords.getLast? :=
  invoke_agent_bounded_loop cexOracle [] "u1" 1 cStore (by
    intro n hn
    have hn3 : n ≤ 2 := hn
    interval_cases n
    · exact ⟨⟨"t0", [⟨"a", "list_tasks", []⟩]⟩, rfl, List.cons_ne_nil _ _⟩
    · exact ⟨⟨"t1", [⟨"b", "list_tasks", []⟩]⟩, rfl, List.cons_ne_nil _ _⟩
    · exact ⟨⟨"t2", [⟨"c", "list_tasks", []⟩]⟩, rfl, List.cons_ne_nil _ _⟩)

end Taskops
